import Mathlib

/-!
Shallow embedding of the STG capability gate of `alive-host-cli`.

JavaScript strings are modelled as `List Char` (`JSString`); JS `number`
timestamps as `Int`; the float-valued gate signals and policy thresholds as
`ℚ` (only order comparisons are performed on them in the source); JS `null`
as `Option`.  Modules with mutable state (`state.ts`, `audit.ts`) are
modelled by explicit state passing.  Sources embedded:
  src/alive-body/stg/state.ts
  src/alive-body/stg/audit.ts
  src/alive-body/stg/gate.ts
  src/alive-core/stg/evaluate.ts
  src/alive-core/stg/policy.ts
  src/phase-38-execution/execute.ts
-/

/-- Decidable equality for `Except`, used to evaluate gate outcomes on
concrete inputs. -/
instance exceptDecidableEq {ε α : Type} [DecidableEq ε] [DecidableEq α] :
    DecidableEq (Except ε α)
  | Except.ok x, Except.ok y =>
      if h : x = y then Decidable.isTrue (congrArg Except.ok h)
      else Decidable.isFalse (fun hc => h (Except.ok.inj hc))
  | Except.ok _, Except.error _ => Decidable.isFalse (fun hc => Except.noConfusion hc)
  | Except.error _, Except.ok _ => Decidable.isFalse (fun hc => Except.noConfusion hc)
  | Except.error d, Except.error e =>
      if h : d = e then Decidable.isTrue (congrArg Except.error h)
      else Decidable.isFalse (fun hc => h (Except.error.inj hc))

/-- JS strings, modelled as lists of characters (written `"...".data`). -/
abbrev JSString : Type := List Char

/-- JS `s.startsWith(p)` on the `List Char` model of strings. -/
def jsStartsWith (s p : JSString) : Bool :=
  List.isPrefixOf p s

/-- JS string interpolation of a `string | null` value (`null` renders as `"null"`). -/
def jsShowNullable : Option JSString → JSString
  | none => "null".data
  | some s => s

/-! ## state.ts -/

/-- `STGStatus` from state.ts: `"OPEN" | "CLOSED"`. -/
inductive STGStatus where
  | OPEN
  | CLOSED
deriving DecidableEq, Repr

/-- The string a status renders as (used in audit metadata). -/
def STGStatus.str : STGStatus → JSString
  | .OPEN => "OPEN".data
  | .CLOSED => "CLOSED".data

/-- `STGState` from state.ts. -/
structure STGState where
  state : STGStatus
  last_open_time : Option Int
  expires_at : Option Int
  scope : Option JSString
  stg_open_id : Option JSString
  cooldown_until : Int
deriving DecidableEq, Repr

/-- Initial value of the module-level `_state` in state.ts. -/
def initialSTGState : STGState :=
  { state := STGStatus.CLOSED
    last_open_time := none
    expires_at := none
    scope := none
    stg_open_id := none
    cooldown_until := 0 }

/-- `closeSTG(now)` from state.ts, as a function of the prior state.
The conditional on `cooldown_until` is reproduced verbatim from the source,
where both branches return `_state.cooldown_until`. -/
def closeSTG (now : Int) (s : STGState) : STGState :=
  { state := STGStatus.CLOSED
    last_open_time := s.last_open_time
    expires_at := none
    scope := none
    stg_open_id := none
    cooldown_until := if s.cooldown_until > now then s.cooldown_until else s.cooldown_until }

/-- Parameters of `openSTG` from state.ts. -/
structure OpenParams where
  now : Int
  expires_at : Int
  scope : JSString
  stg_open_id : JSString
  cooldown_until : Int
deriving DecidableEq, Repr

/-- `openSTG(params)` from state.ts, as a function of the prior state
(the prior state is unused: the write is unconditional and total). -/
def openSTG (params : OpenParams) (_s : STGState) : STGState :=
  { state := STGStatus.OPEN
    last_open_time := some params.now
    expires_at := some params.expires_at
    scope := some params.scope
    stg_open_id := some params.stg_open_id
    cooldown_until := params.cooldown_until }

/-! ## audit.ts events -/

/-- Values stored in the `metadata` record of an audit event. -/
inductive MetaValue where
  | str (s : JSString)
  | num (n : Int)
  | optNum (n : Option Int)
  | optStr (s : Option JSString)
deriving DecidableEq, Repr

/-- `AuditEvent` from audit.ts.  `type` is kept as a plain string because
execute.ts appends events whose `type` lies outside the `AuditEventType`
union of audit.ts; absent optional fields are `none` / `[]`. -/
structure AuditEvent where
  type : JSString
  timestamp : Int
  reason : JSString
  stg_open_id : Option JSString
  scope : Option JSString
  metadata : List (JSString × MetaValue)
deriving DecidableEq, Repr

/-! ## gate.ts -/

/-- Result of invoking a JS task `() => T`: it returns a value or raises. -/
inductive TaskResult (ε τ : Type) where
  | ok (v : τ)
  | raise (e : ε)
deriving DecidableEq, Repr

/-- Errors escaping `runCognitiveCycle` / `runExecution`: either a
`new Error(msg)` thrown by the gate itself, or the task's own error
re-raised. -/
inductive RunError (ε : Type) where
  | gateViolation (msg : JSString)
  | taskError (e : ε)
deriving DecidableEq, Repr

/-- Observable outcome of one gated call: the window state after the call,
the audit log after the call, the returned value or raised error, and the
number of times the task body was entered. -/
structure CycleResult (ε τ : Type) where
  state : STGState
  log : List AuditEvent
  result : Except (RunError ε) τ
  invocations : Nat

/-- The inline expiry condition of gate.ts / execute.ts:
`state.expires_at !== null && now > state.expires_at`. -/
def expiredCheck (expires_at : Option Int) (now : Int) : Bool :=
  match expires_at with
  | none => false
  | some e => now > e

/-- `isScopeAuthorized(requested, authorized)` from gate.ts. -/
def isScopeAuthorized (requested : JSString) (authorized : Option JSString) : Bool :=
  match authorized with
  | none => false
  | some a => requested == a || jsStartsWith requested (a ++ ".".data)

/-- The `CONSTITUTIONAL_VIOLATION` event of gate.ts step 1 (`no_stg_open`). -/
def noOpenViolationEvent (requestedScope : JSString) (now : Int) (st : STGState) : AuditEvent :=
  { type := "CONSTITUTIONAL_VIOLATION".data
    timestamp := now
    reason := "no_stg_open".data
    stg_open_id := none
    scope := some requestedScope
    metadata := [("state".data, MetaValue.str st.state.str)] }

/-- The `CONSTITUTIONAL_VIOLATION` event of gate.ts step 2 (`stg_expired`). -/
def expiredViolationEvent (requestedScope : JSString) (now : Int) (st : STGState) : AuditEvent :=
  { type := "CONSTITUTIONAL_VIOLATION".data
    timestamp := now
    reason := "stg_expired".data
    stg_open_id := st.stg_open_id
    scope := some requestedScope
    metadata := [("expires_at".data, MetaValue.optNum st.expires_at), ("now".data, MetaValue.num now)] }

/-- The `CONSTITUTIONAL_VIOLATION` event of gate.ts step 3 (`unauthorized_cognition`). -/
def unauthorizedCognitionEvent (requestedScope : JSString) (now : Int) (st : STGState) : AuditEvent :=
  { type := "CONSTITUTIONAL_VIOLATION".data
    timestamp := now
    reason := "unauthorized_cognition".data
    stg_open_id := st.stg_open_id
    scope := some requestedScope
    metadata := [("authorized_scope".data, MetaValue.optStr st.scope)] }

/-- The `COGNITION_START` event of gate.ts step 4. -/
def cognitionStartEvent (requestedScope : JSString) (now : Int) (st : STGState) : AuditEvent :=
  { type := "COGNITION_START".data
    timestamp := now
    reason := "authorized".data
    stg_open_id := st.stg_open_id
    scope := some requestedScope
    metadata := [] }

/-- The `COGNITION_END` event with reason `completed` (gate.ts step 6). -/
def cognitionEndCompletedEvent (requestedScope : JSString) (nowEnd : Int) (st : STGState) :
    AuditEvent :=
  { type := "COGNITION_END".data
    timestamp := nowEnd
    reason := "completed".data
    stg_open_id := st.stg_open_id
    scope := some requestedScope
    metadata := [] }

/-- The `COGNITION_END` event with reason `failed` (gate.ts catch branch);
`errS` is `String(error)` of the task's error. -/
def cognitionEndFailedEvent (requestedScope : JSString) (nowEnd : Int) (st : STGState)
    (errS : JSString) : AuditEvent :=
  { type := "COGNITION_END".data
    timestamp := nowEnd
    reason := "failed".data
    stg_open_id := st.stg_open_id
    scope := some requestedScope
    metadata := [("error".data, MetaValue.str errS)] }

/-- Message of the gate.ts step 3 throw.  The source wraps the two scopes in
single-quote characters, omitted here. -/
def unauthorizedCognitionMsg (requestedScope : JSString) (st : STGState) : JSString :=
  "CONSTITUTIONAL_VIOLATION: Scope ".data ++ requestedScope ++
    " not authorized (authorized: ".data ++ jsShowNullable st.scope ++ ")".data

/-- `runCognitiveCycle(task, requestedScope)` from gate.ts, over the window
state and audit log it reads.  `taskRes` is the outcome of invoking the task
once; `errStr` is JS `String(error)`; `now` is the `Date.now()` taken at
entry, `nowEnd` the `Date.now()` taken when logging `COGNITION_END`.  The
source never writes `_state`, so the returned `state` is the input state in
every branch. -/
def runCognitiveCycle {ε τ : Type} (taskRes : TaskResult ε τ) (errStr : ε → JSString)
    (requestedScope : JSString) (now nowEnd : Int) (st : STGState) (log : List AuditEvent) :
    CycleResult ε τ :=
  if st.state ≠ STGStatus.OPEN then
    { state := st
      log := log ++ [noOpenViolationEvent requestedScope now st]
      result := Except.error (RunError.gateViolation
        "CONSTITUTIONAL_VIOLATION: Cognition attempted without STG_OPEN".data)
      invocations := 0 }
  else if expiredCheck st.expires_at now then
    { state := st
      log := log ++ [expiredViolationEvent requestedScope now st]
      result := Except.error (RunError.gateViolation
        "CONSTITUTIONAL_VIOLATION: STG_OPEN has expired".data)
      invocations := 0 }
  else if ¬ isScopeAuthorized requestedScope st.scope then
    { state := st
      log := log ++ [unauthorizedCognitionEvent requestedScope now st]
      result := Except.error (RunError.gateViolation (unauthorizedCognitionMsg requestedScope st))
      invocations := 0 }
  else
    match taskRes with
    | TaskResult.ok v =>
        { state := st
          log := log ++ [cognitionStartEvent requestedScope now st,
                         cognitionEndCompletedEvent requestedScope nowEnd st]
          result := Except.ok v
          invocations := 1 }
    | TaskResult.raise e =>
        { state := st
          log := log ++ [cognitionStartEvent requestedScope now st,
                         cognitionEndFailedEvent requestedScope nowEnd st (errStr e)]
          result := Except.error (RunError.taskError e)
          invocations := 1 }

/-! ## evaluate.ts -/

/-- `GateDecision` from alive-core/stg/types.ts. -/
inductive GateDecision where
  | OPEN
  | DEFER
  | DENY
deriving DecidableEq, Repr

/-- `GateResult` from alive-core/stg/types.ts. -/
structure GateResult where
  decision : GateDecision
  reason : JSString
deriving DecidableEq, Repr

/-- `STGSignals` from alive-core/stg/types.ts; the two float fields are
modelled as rationals (only order comparisons are performed on them). -/
structure STGSignals where
  prediction_error : ℚ
  novelty_delta : ℚ
  resources_ok : Bool
  intent_authorized : Bool
  requested_scope : JSString
deriving DecidableEq, Repr

/-- `STGPolicy` from alive-core/stg/policy.ts; `allowed_scopes` is a JS `Set`,
modelled as its insertion-ordered, duplicate-free element list. -/
structure STGPolicy where
  epsilon_prediction_error : ℚ
  delta_novelty : ℚ
  max_cognitive_duration_ms : ℚ
  max_compute_budget : ℚ
  cooldown_duration_ms : ℚ
  allowed_scopes : List JSString
  policy_hash : JSString
deriving DecidableEq, Repr

/-- `evaluateGate(signals, policy, now, cooldown_until)` from evaluate.ts. -/
def evaluateGate (signals : STGSignals) (policy : STGPolicy) (now cooldown_until : Int) :
    GateResult :=
  if now < cooldown_until then
    { decision := GateDecision.DENY, reason := "cooldown_active".data }
  else if ¬ signals.intent_authorized then
    { decision := GateDecision.DENY, reason := "unauthorized_intent".data }
  else if ¬ signals.resources_ok then
    { decision := GateDecision.DEFER, reason := "insufficient_resources".data }
  else if signals.prediction_error ≤ policy.epsilon_prediction_error then
    { decision := GateDecision.DENY, reason := "low_prediction_error".data }
  else if signals.novelty_delta ≤ policy.delta_novelty then
    { decision := GateDecision.DENY, reason := "low_novelty".data }
  else
    { decision := GateDecision.OPEN, reason := "thresholds_satisfied".data }

/-- First-matching-rule combinator: returns the result of the first rule
whose condition holds, else the default. -/
def firstMatch : List (Bool × GateResult) → GateResult → GateResult
  | [], dflt => dflt
  | (c, r) :: rest, dflt => if c then r else firstMatch rest dflt

/-- The spec's decision algorithm, stated as its own words state it: an
ordered rule list evaluated first-match-wins, with non-strict threshold
comparisons, defaulting to `OPEN / thresholds_satisfied`.  Written
separately from `evaluateGate` so that agreement between the two is a
theorem, not a definition. -/
def evaluateSpecRules (signals : STGSignals) (policy : STGPolicy) (now cooldown_until : Int) :
    GateResult :=
  firstMatch
    [ (decide (now < cooldown_until),
        { decision := GateDecision.DENY, reason := "cooldown_active".data }),
      (! signals.intent_authorized,
        { decision := GateDecision.DENY, reason := "unauthorized_intent".data }),
      (! signals.resources_ok,
        { decision := GateDecision.DEFER, reason := "insufficient_resources".data }),
      (decide (signals.prediction_error ≤ policy.epsilon_prediction_error),
        { decision := GateDecision.DENY, reason := "low_prediction_error".data }),
      (decide (signals.novelty_delta ≤ policy.delta_novelty),
        { decision := GateDecision.DENY, reason := "low_novelty".data }) ]
    { decision := GateDecision.OPEN, reason := "thresholds_satisfied".data }

/-! ## policy.ts -/

/-- The parameter object of `createSTGPolicy` from policy.ts. -/
structure PolicyParams where
  epsilon_prediction_error : ℚ
  delta_novelty : ℚ
  max_cognitive_duration_ms : ℚ
  max_compute_budget : ℚ
  cooldown_duration_ms : ℚ
  allowed_scopes : List JSString
  policy_hash : JSString
deriving DecidableEq, Repr

/-- `createSTGPolicy(params)` from policy.ts: it freezes the field values as
given, building `new Set(params.allowed_scopes)` (first occurrence kept, in
insertion order).  The source performs no input validation and cannot fail. -/
def createSTGPolicy (params : PolicyParams) : STGPolicy :=
  { epsilon_prediction_error := params.epsilon_prediction_error
    delta_novelty := params.delta_novelty
    max_cognitive_duration_ms := params.max_cognitive_duration_ms
    max_compute_budget := params.max_compute_budget
    cooldown_duration_ms := params.cooldown_duration_ms
    allowed_scopes := params.allowed_scopes.eraseDups
    policy_hash := params.policy_hash }

/-- The `InvalidPolicy` error the spec prescribes for constructor validation. -/
inductive InvalidPolicy where
  | invalid
deriving DecidableEq, Repr

/-- The spec's `createPolicy` contract, stated as its own words state it
(§4.1: all numeric thresholds nonnegative, `allowedScopes` non-empty,
`cooldownDurationMs` nonnegative; invalid input fails fast with
`InvalidPolicy`).  Written separately from `createSTGPolicy` so that
agreement between the two is a theorem, not a definition. -/
def specCreatePolicy (params : PolicyParams) : Except InvalidPolicy STGPolicy :=
  if params.epsilon_prediction_error < 0 ∨ params.delta_novelty < 0 ∨
      params.max_cognitive_duration_ms < 0 ∨ params.max_compute_budget < 0 ∨
      params.cooldown_duration_ms < 0 ∨ params.allowed_scopes.isEmpty then
    Except.error InvalidPolicy.invalid
  else
    Except.ok (createSTGPolicy params)

/-! ## execute.ts -/

/-- `ExecutionRequest` from execute.ts; `executeRes` is the outcome of
invoking `request.execute` once. -/
structure ExecutionRequest (ε τ : Type) where
  scope : JSString
  executeRes : TaskResult ε τ
  stg_open_id : Option JSString

/-- The `CONSTITUTIONAL_VIOLATION` event of execute.ts step 1 (`no_stg_open`). -/
def execNoOpenEvent (scope : JSString) (now : Int) : AuditEvent :=
  { type := "CONSTITUTIONAL_VIOLATION".data
    timestamp := now
    reason := "no_stg_open".data
    stg_open_id := none
    scope := some scope
    metadata := [] }

/-- The `CONSTITUTIONAL_VIOLATION` event of execute.ts step 2
(`authorization_expired`). -/
def execExpiredEvent (scope : JSString) (now : Int) (st : STGState) : AuditEvent :=
  { type := "CONSTITUTIONAL_VIOLATION".data
    timestamp := now
    reason := "authorization_expired".data
    stg_open_id := none
    scope := some scope
    metadata := [("expires_at".data, MetaValue.optNum st.expires_at)] }

/-- The `CONSTITUTIONAL_VIOLATION` event of execute.ts step 3
(`unauthorized_execution`). -/
def execUnauthorizedEvent (scope : JSString) (now : Int) (st : STGState) : AuditEvent :=
  { type := "CONSTITUTIONAL_VIOLATION".data
    timestamp := now
    reason := "unauthorized_execution".data
    stg_open_id := none
    scope := some scope
    metadata := [("authorized_scope".data, MetaValue.optStr st.scope)] }

/-- The `EXECUTION_START` event of execute.ts step 4. -/
def execStartEvent (scope : JSString) (now : Int) (st : STGState) : AuditEvent :=
  { type := "EXECUTION_START".data
    timestamp := now
    reason := "execution_started".data
    stg_open_id := st.stg_open_id
    scope := some scope
    metadata := [] }

/-- The `EXECUTION_END` event of execute.ts. -/
def execEndEvent (scope : JSString) (nowEnd : Int) (st : STGState) : AuditEvent :=
  { type := "EXECUTION_END".data
    timestamp := nowEnd
    reason := "execution_completed".data
    stg_open_id := st.stg_open_id
    scope := some scope
    metadata := [] }

/-- The `EXECUTION_ERROR` event of execute.ts; `errS` is the message the
source extracts from the raised error. -/
def execErrorEvent (scope : JSString) (nowEnd : Int) (errS : JSString) : AuditEvent :=
  { type := "EXECUTION_ERROR".data
    timestamp := nowEnd
    reason := "execution_failed".data
    stg_open_id := none
    scope := some scope
    metadata := [("error".data, MetaValue.str errS)] }

/-- Message of the execute.ts step 3 throw.  The source wraps the two scopes
in single-quote characters, omitted here. -/
def unauthorizedExecutionMsg (scope : JSString) (st : STGState) : JSString :=
  "CONSTITUTIONAL_VIOLATION: Execution scope ".data ++ scope ++
    " not authorized (authorized: ".data ++ jsShowNullable st.scope ++ ")".data

/-- `runExecution(request)` from execute.ts, over the window state and audit
log it touches.  Unlike gate.ts, step 2 force-closes the window on expiry,
and step 3 requires exact scope equality (`state.scope !== request.scope`). -/
def runExecution {ε τ : Type} (request : ExecutionRequest ε τ) (errStr : ε → JSString)
    (now nowEnd : Int) (st : STGState) (log : List AuditEvent) : CycleResult ε τ :=
  if st.state ≠ STGStatus.OPEN then
    { state := st
      log := log ++ [execNoOpenEvent request.scope now]
      result := Except.error (RunError.gateViolation
        "CONSTITUTIONAL_VIOLATION: Execution attempted without STG authorization (no_stg_open)".data)
      invocations := 0 }
  else if expiredCheck st.expires_at now then
    { state := closeSTG now st
      log := log ++ [execExpiredEvent request.scope now st]
      result := Except.error (RunError.gateViolation
        "CONSTITUTIONAL_VIOLATION: Execution attempted with expired authorization".data)
      invocations := 0 }
  else if st.scope ≠ some request.scope then
    { state := st
      log := log ++ [execUnauthorizedEvent request.scope now st]
      result := Except.error (RunError.gateViolation (unauthorizedExecutionMsg request.scope st))
      invocations := 0 }
  else
    match request.executeRes with
    | TaskResult.ok v =>
        { state := st
          log := log ++ [execStartEvent request.scope now st, execEndEvent request.scope nowEnd st]
          result := Except.ok v
          invocations := 1 }
    | TaskResult.raise e =>
        { state := st
          log := log ++ [execStartEvent request.scope now st,
                         execErrorEvent request.scope nowEnd (errStr e)]
          result := Except.error (RunError.taskError e)
          invocations := 1 }

/-! ## audit.ts module state

JS arrays are mutable objects accessed by reference, and `getAuditLog`
returns the module's `_log` array itself.  To make the aliasing observable,
the module is modelled with a tiny heap of arrays: a reference is an index
into the heap, the module variable `_log` holds a reference, and mutating
through any alias of that reference is visible through every other alias. -/

/-- A JS array reference (index into the heap of allocated arrays). -/
abbrev ArrayRef : Type := Nat

/-- Heap of allocated `AuditEvent` arrays. -/
structure JSHeap where
  cells : List (List AuditEvent)
deriving DecidableEq, Repr

/-- Contents of the array a reference points at. -/
def JSHeap.read (h : JSHeap) (r : ArrayRef) : List AuditEvent :=
  h.cells.getD r []

/-- JS `arr.push(e)` on the array a reference points at (in-place mutation:
every alias of `r` observes the appended element). -/
def JSHeap.pushAt (h : JSHeap) (r : ArrayRef) (e : AuditEvent) : JSHeap :=
  { cells := h.cells.set r (h.cells.getD r [] ++ [e]) }

/-- Allocate a fresh array holding `v`; returns the new heap and reference. -/
def JSHeap.alloc (h : JSHeap) (v : List AuditEvent) : JSHeap × ArrayRef :=
  ({ cells := h.cells ++ [v] }, h.cells.length)

/-- State of the audit.ts module: the heap and the reference held by the
module-level variable `_log`. -/
structure AuditModule where
  heap : JSHeap
  logRef : ArrayRef
deriving DecidableEq, Repr

/-- Module state at load: `_log` bound to a freshly allocated empty array. -/
def auditModuleInit : AuditModule :=
  { heap := { cells := [[]] }, logRef := 0 }

/-- `logAuditEvent(event)` from audit.ts: `_log.push(event)`. -/
def logAuditEvent (m : AuditModule) (e : AuditEvent) : AuditModule :=
  { m with heap := m.heap.pushAt m.logRef e }

/-- `getAuditLog()` from audit.ts: `return _log` — the function returns the
module's own array reference, not a copy (its doc comment claims a shallow
copy is returned, but the body performs none). -/
def getAuditLog (m : AuditModule) : ArrayRef :=
  m.logRef

/-- The event sequence a `getAuditLog()` caller observes. -/
def auditLogContents (m : AuditModule) : List AuditEvent :=
  m.heap.read m.logRef

/-- `clearAuditLog()` from audit.ts: `_log = []` rebinds the module variable
to a freshly allocated empty array (prior aliases keep the old array). -/
def clearAuditLog (m : AuditModule) : AuditModule :=
  { heap := (m.heap.alloc []).1, logRef := (m.heap.alloc []).2 }

/-! ## iterated gated calls (for the denial-burst property) -/

/-- Run `runCognitiveCycle` once per entry of `times` (the `Date.now()` of
each successive call), threading window state and audit log, and summing
task invocations. -/
def runBurst {ε τ : Type} (taskRes : TaskResult ε τ) (errStr : ε → JSString)
    (requestedScope : JSString) (times : List Int) (nowEnd : Int) (st : STGState)
    (log : List AuditEvent) : STGState × List AuditEvent × Nat :=
  match times with
  | [] => (st, log, 0)
  | t :: rest =>
      let r := runCognitiveCycle taskRes errStr requestedScope t nowEnd st log
      let rr := runBurst taskRes errStr requestedScope rest nowEnd r.state r.log
      (rr.1, rr.2.1, r.invocations + rr.2.2)

/-- A call to `runCognitiveCycle` at time `t` under state `st` with the given
requested scope is unauthorized: the window is not open, or it has expired,
or the scope is not authorized. -/
def unauthorizedAt (st : STGState) (requestedScope : JSString) (t : Int) : Prop :=
  st.state ≠ STGStatus.OPEN ∨ expiredCheck st.expires_at t = true ∨
    isScopeAuthorized requestedScope st.scope = false

/-! ## concrete sample inputs (used to instantiate the theorems) -/

/-- A sample open window: scope `demo`, id `w1`, expiring at 100. -/
def sampleOpenState : STGState :=
  { state := STGStatus.OPEN
    last_open_time := some 0
    expires_at := some 100
    scope := some "demo".data
    stg_open_id := some "w1".data
    cooldown_until := 0 }

/-- A sample open window with no expiry (`expires_at = null`). -/
def sampleNoExpiryState : STGState :=
  { state := STGStatus.OPEN
    last_open_time := some 0
    expires_at := none
    scope := some "demo".data
    stg_open_id := some "w2".data
    cooldown_until := 0 }

/-- A sample audit event. -/
def sampleEventA : AuditEvent :=
  { type := "STG_OPEN".data
    timestamp := 1
    reason := "r1".data
    stg_open_id := none
    scope := none
    metadata := [] }

/-- Another sample audit event. -/
def sampleEventB : AuditEvent :=
  { type := "STG_CLOSE".data
    timestamp := 2
    reason := "r2".data
    stg_open_id := none
    scope := none
    metadata := [] }

/-! ## branch characterizations of the gate (helper lemmas) -/

theorem runCognitiveCycle_not_open {ε τ : Type} (taskRes : TaskResult ε τ) (errStr : ε → JSString)
    (s : JSString) (now nowEnd : Int) (st : STGState) (log : List AuditEvent)
    (h : st.state ≠ STGStatus.OPEN) :
    runCognitiveCycle taskRes errStr s now nowEnd st log =
      { state := st
        log := log ++ [noOpenViolationEvent s now st]
        result := Except.error (RunError.gateViolation
          "CONSTITUTIONAL_VIOLATION: Cognition attempted without STG_OPEN".data)
        invocations := 0 } := by
  unfold runCognitiveCycle
  rw [if_pos h]

theorem runCognitiveCycle_expired_run {ε τ : Type} (taskRes : TaskResult ε τ)
    (errStr : ε → JSString) (s : JSString) (now nowEnd : Int) (st : STGState)
    (log : List AuditEvent) (hopen : st.state = STGStatus.OPEN)
    (hexp : expiredCheck st.expires_at now = true) :
    runCognitiveCycle taskRes errStr s now nowEnd st log =
      { state := st
        log := log ++ [expiredViolationEvent s now st]
        result := Except.error (RunError.gateViolation
          "CONSTITUTIONAL_VIOLATION: STG_OPEN has expired".data)
        invocations := 0 } := by
  unfold runCognitiveCycle
  rw [if_neg (by simp [hopen]), if_pos (by simp [hexp])]

theorem runCognitiveCycle_bad_scope {ε τ : Type} (taskRes : TaskResult ε τ)
    (errStr : ε → JSString) (s : JSString) (now nowEnd : Int) (st : STGState)
    (log : List AuditEvent) (hopen : st.state = STGStatus.OPEN)
    (hexp : expiredCheck st.expires_at now = false)
    (hauth : isScopeAuthorized s st.scope = false) :
    runCognitiveCycle taskRes errStr s now nowEnd st log =
      { state := st
        log := log ++ [unauthorizedCognitionEvent s now st]
        result := Except.error (RunError.gateViolation (unauthorizedCognitionMsg s st))
        invocations := 0 } := by
  unfold runCognitiveCycle
  rw [if_neg (by simp [hopen]), if_neg (by simp [hexp]), if_pos (by simp [hauth])]

theorem runCognitiveCycle_ok_run {ε τ : Type} (v : τ) (errStr : ε → JSString)
    (s : JSString) (now nowEnd : Int) (st : STGState) (log : List AuditEvent)
    (hopen : st.state = STGStatus.OPEN) (hexp : expiredCheck st.expires_at now = false)
    (hauth : isScopeAuthorized s st.scope = true) :
    runCognitiveCycle (TaskResult.ok v) errStr s now nowEnd st log =
      { state := st
        log := log ++ [cognitionStartEvent s now st, cognitionEndCompletedEvent s nowEnd st]
        result := Except.ok v
        invocations := 1 } := by
  unfold runCognitiveCycle
  rw [if_neg (by simp [hopen]), if_neg (by simp [hexp]), if_neg (by simp [hauth])]

theorem runCognitiveCycle_raise_run {ε τ : Type} (e : ε) (errStr : ε → JSString)
    (s : JSString) (now nowEnd : Int) (st : STGState) (log : List AuditEvent)
    (hopen : st.state = STGStatus.OPEN) (hexp : expiredCheck st.expires_at now = false)
    (hauth : isScopeAuthorized s st.scope = true) :
    runCognitiveCycle (TaskResult.raise e : TaskResult ε τ) errStr s now nowEnd st log =
      { state := st
        log := log ++ [cognitionStartEvent s now st, cognitionEndFailedEvent s nowEnd st (errStr e)]
        result := Except.error (RunError.taskError e)
        invocations := 1 } := by
  unfold runCognitiveCycle
  rw [if_neg (by simp [hopen]), if_neg (by simp [hexp]), if_neg (by simp [hauth])]

theorem runCognitiveCycle_unauthorized_step {ε τ : Type} (taskRes : TaskResult ε τ)
    (errStr : ε → JSString) (s : JSString) (t nowEnd : Int) (st : STGState)
    (log : List AuditEvent) (h : unauthorizedAt st s t) :
    ∃ ev msg,
      runCognitiveCycle taskRes errStr s t nowEnd st log =
        { state := st
          log := log ++ [ev]
          result := Except.error (RunError.gateViolation msg)
          invocations := 0 } ∧
      ev.type = "CONSTITUTIONAL_VIOLATION".data := by
  by_cases h1 : st.state = STGStatus.OPEN
  · by_cases h2 : expiredCheck st.expires_at t = true
    · exact ⟨_, _, runCognitiveCycle_expired_run taskRes errStr s t nowEnd st log h1 h2, rfl⟩
    · have h3 : isScopeAuthorized s st.scope = false := by
        rcases h with h | h | h
        · exact absurd h1 h
        · exact absurd h h2
        · exact h
      exact ⟨_, _, runCognitiveCycle_bad_scope taskRes errStr s t nowEnd st log h1
        (Bool.eq_false_iff.mpr h2) h3, rfl⟩
  · exact ⟨_, _, runCognitiveCycle_not_open taskRes errStr s t nowEnd st log h1, rfl⟩

/-! ## claim theorems -/

/-- Claim C1: for an open, unexpired window whose authorized scope is `a`,
`runCognitiveCycle` invokes the task and succeeds exactly when the requested
scope `s` equals `a` or starts with `a` followed by a dot; for every other
`s` it appends one `CONSTITUTIONAL_VIOLATION` event with reason
`unauthorized_cognition` (the spec's `VIOLATION` / `unauthorized_scope`) and
fails with the gate's violation error without invoking the task. -/
theorem gate_scope_authorization {ε τ : Type} (v : τ) (errStr : ε → JSString)
    (s a : JSString) (now nowEnd : Int) (st : STGState) (log : List AuditEvent)
    (hopen : st.state = STGStatus.OPEN) (hexp : expiredCheck st.expires_at now = false)
    (hscope : st.scope = some a) :
    ((s = a ∨ jsStartsWith s (a ++ ".".data) = true) →
      runCognitiveCycle (TaskResult.ok v) errStr s now nowEnd st log =
        { state := st
          log := log ++ [cognitionStartEvent s now st, cognitionEndCompletedEvent s nowEnd st]
          result := Except.ok v
          invocations := 1 }) ∧
    (¬ (s = a ∨ jsStartsWith s (a ++ ".".data) = true) →
      runCognitiveCycle (TaskResult.ok v) errStr s now nowEnd st log =
        { state := st
          log := log ++ [unauthorizedCognitionEvent s now st]
          result := Except.error (RunError.gateViolation (unauthorizedCognitionMsg s st))
          invocations := 0 }) := by
  constructor
  · intro h
    apply runCognitiveCycle_ok_run v errStr s now nowEnd st log hopen hexp
    rw [hscope]
    unfold isScopeAuthorized
    rcases h with h | h
    · simp [h]
    · simp [h]
  · intro h
    push_neg at h
    apply runCognitiveCycle_bad_scope _ errStr s now nowEnd st log hopen hexp
    rw [hscope]
    unfold isScopeAuthorized
    simp [h.1, h.2]

/-- Claim C1 witness: under the sample open window (scope `demo`), the
descendant scope `demo.x` runs the task once and returns its value, while
the unrelated scope `other` leaves the task uninvoked. -/
theorem gate_scope_authorization_witness :
    (runCognitiveCycle (TaskResult.ok (7 : Nat)) (fun e : JSString => e) "demo.x".data 50 60
        sampleOpenState []).invocations = 1 ∧
    (runCognitiveCycle (TaskResult.ok (7 : Nat)) (fun e : JSString => e) "other".data 50 60
        sampleOpenState []).invocations = 0 := by
  have h1 := gate_scope_authorization (ε := JSString) 7 (fun e => e) "demo.x".data "demo".data
    50 60 sampleOpenState [] (by decide) (by decide) (by decide)
  have h2 := gate_scope_authorization (ε := JSString) 7 (fun e => e) "other".data "demo".data
    50 60 sampleOpenState [] (by decide) (by decide) (by decide)
  exact ⟨by rw [h1.1 (by decide)], by rw [h2.2 (by decide)]⟩

/-- Claim C2: whenever the window status is `CLOSED`, every call to
`runCognitiveCycle` — for any task outcome and any requested scope —
appends one `CONSTITUTIONAL_VIOLATION` event with reason `no_stg_open`
(the spec's `no_window_open`), fails with the gate's violation error, and
never invokes the task (the outcome is the same for every task). -/
theorem gate_closed_denies {ε τ : Type} (taskRes : TaskResult ε τ) (errStr : ε → JSString)
    (s : JSString) (now nowEnd : Int) (st : STGState) (log : List AuditEvent)
    (hclosed : st.state = STGStatus.CLOSED) :
    runCognitiveCycle taskRes errStr s now nowEnd st log =
      { state := st
        log := log ++ [noOpenViolationEvent s now st]
        result := Except.error (RunError.gateViolation
          "CONSTITUTIONAL_VIOLATION: Cognition attempted without STG_OPEN".data)
        invocations := 0 } :=
  runCognitiveCycle_not_open taskRes errStr s now nowEnd st log (by simp [hclosed])

/-- Claim C2 witness: under the initial (closed) state, a call with a task
that would return 3 appends exactly the `no_stg_open` violation event,
fails, and reports zero task invocations. -/
theorem gate_closed_denies_witness :
    initialSTGState.state = STGStatus.CLOSED ∧
    runCognitiveCycle (TaskResult.ok (3 : Nat)) (fun e : JSString => e) "any.scope".data 10 11
        initialSTGState [] =
      { state := initialSTGState
        log := [] ++ [noOpenViolationEvent "any.scope".data 10 initialSTGState]
        result := Except.error (RunError.gateViolation
          "CONSTITUTIONAL_VIOLATION: Cognition attempted without STG_OPEN".data)
        invocations := 0 } :=
  ⟨by decide,
   gate_closed_denies (TaskResult.ok 3) (fun e => e) "any.scope".data 10 11 initialSTGState []
     (by decide)⟩

/-- Claim C3: `evaluateGate` agrees, on every input, with the spec's ordered
first-match rule list (cooldown, then intent, then resources, then the two
non-strict threshold checks, else `OPEN / thresholds_satisfied`); rule order
and non-strictness are therefore exactly as the spec states. -/
theorem evaluateGate_matches_spec_rules (signals : STGSignals) (policy : STGPolicy)
    (now cooldown_until : Int) :
    evaluateGate signals policy now cooldown_until =
      evaluateSpecRules signals policy now cooldown_until := by
  simp only [evaluateGate, evaluateSpecRules, firstMatch, decide_eq_true_eq,
    Bool.not_eq_true', Bool.if_true_left, Bool.if_false_left]
  split_ifs <;> simp_all

/-- Claim C4 counterexample: the parameter object with a negative
`epsilon_prediction_error` of -1, a negative `cooldown_duration_ms` of -5
and an empty `allowed_scopes` must, by the spec, fail fast with
`InvalidPolicy`; `createSTGPolicy` instead returns a frozen policy carrying
exactly those invalid values and raises nothing. -/
theorem createSTGPolicy_validation_counterexample :
    specCreatePolicy
        { epsilon_prediction_error := -1
          delta_novelty := 0
          max_cognitive_duration_ms := 0
          max_compute_budget := 0
          cooldown_duration_ms := -5
          allowed_scopes := []
          policy_hash := "h".data } = Except.error InvalidPolicy.invalid ∧
    createSTGPolicy
        { epsilon_prediction_error := -1
          delta_novelty := 0
          max_cognitive_duration_ms := 0
          max_compute_budget := 0
          cooldown_duration_ms := -5
          allowed_scopes := []
          policy_hash := "h".data } =
      { epsilon_prediction_error := -1
        delta_novelty := 0
        max_cognitive_duration_ms := 0
        max_compute_budget := 0
        cooldown_duration_ms := -5
        allowed_scopes := []
        policy_hash := "h".data } := by
  decide

/-- Claim C4 (amended): `createSTGPolicy` performs no input validation at
all — for every parameter object, including ones with negative thresholds,
a negative cooldown duration, or empty `allowed_scopes`, it returns the
frozen policy built from the given field values (deduplicating
`allowed_scopes` as `new Set` does) and never raises; no `InvalidPolicy`
error exists in the code. -/
theorem createSTGPolicy_no_validation (params : PolicyParams) :
    createSTGPolicy params =
      { epsilon_prediction_error := params.epsilon_prediction_error
        delta_novelty := params.delta_novelty
        max_cognitive_duration_ms := params.max_cognitive_duration_ms
        max_compute_budget := params.max_compute_budget
        cooldown_duration_ms := params.cooldown_duration_ms
        allowed_scopes := params.allowed_scopes.eraseDups
        policy_hash := params.policy_hash } :=
  rfl

/-- Claim C5: `getAuditLog` returns the module's backing array itself, not
the snapshot its documentation promises.  Concretely: after one append, a
caller that pushes an event through the reference `getAuditLog` returned
makes a subsequent read observe the pushed event — the backing store was
mutated through the returned value, contradicting both the claim and the
function's own doc comment. -/
theorem getAuditLog_aliases_backing_store :
    auditLogContents (logAuditEvent auditModuleInit sampleEventA) = [sampleEventA] ∧
    auditLogContents
        { logAuditEvent auditModuleInit sampleEventA with
          heap := (logAuditEvent auditModuleInit sampleEventA).heap.pushAt
            (getAuditLog (logAuditEvent auditModuleInit sampleEventA)) sampleEventB } =
      [sampleEventA, sampleEventB] := by
  decide

/-- Claim C6: for an open window with authorized requested scope, a call at
`now ≤ expires_at` invokes the task and succeeds; a call at
`now > expires_at` appends one `CONSTITUTIONAL_VIOLATION` event with reason
`stg_expired` (the spec's `window_expired`) and fails without invoking the
task; and with `expires_at = null` the expiry check never fails. -/
theorem gate_expiry_boundary {ε τ : Type} (v : τ) (errStr : ε → JSString) (s : JSString)
    (now nowEnd : Int) (st : STGState) (log : List AuditEvent)
    (hopen : st.state = STGStatus.OPEN) (hauth : isScopeAuthorized s st.scope = true) :
    (∀ e, st.expires_at = some e → now ≤ e →
      runCognitiveCycle (TaskResult.ok v : TaskResult ε τ) errStr s now nowEnd st log =
        { state := st
          log := log ++ [cognitionStartEvent s now st, cognitionEndCompletedEvent s nowEnd st]
          result := Except.ok v
          invocations := 1 }) ∧
    (∀ e, st.expires_at = some e → now > e →
      runCognitiveCycle (TaskResult.ok v : TaskResult ε τ) errStr s now nowEnd st log =
        { state := st
          log := log ++ [expiredViolationEvent s now st]
          result := Except.error (RunError.gateViolation
            "CONSTITUTIONAL_VIOLATION: STG_OPEN has expired".data)
          invocations := 0 }) ∧
    (st.expires_at = none →
      runCognitiveCycle (TaskResult.ok v : TaskResult ε τ) errStr s now nowEnd st log =
        { state := st
          log := log ++ [cognitionStartEvent s now st, cognitionEndCompletedEvent s nowEnd st]
          result := Except.ok v
          invocations := 1 }) := by
  refine ⟨?_, ?_, ?_⟩
  · intro e he hle
    apply runCognitiveCycle_ok_run v errStr s now nowEnd st log hopen _ hauth
    rw [he]
    simp only [expiredCheck, decide_eq_false_iff_not]
    omega
  · intro e he hgt
    apply runCognitiveCycle_expired_run _ errStr s now nowEnd st log hopen
    rw [he]
    simp only [expiredCheck, decide_eq_true_eq]
    omega
  · intro hnone
    apply runCognitiveCycle_ok_run v errStr s now nowEnd st log hopen _ hauth
    rw [hnone]
    rfl

/-- Claim C6 witness: the sample window expires at 100; with the authorized
scope `demo`, the call at 50 runs the task and returns 7, the call at 150
appends the `stg_expired` violation and leaves the task uninvoked, and the
never-expiring sample window succeeds at time 1000000. -/
theorem gate_expiry_boundary_witness :
    (runCognitiveCycle (TaskResult.ok (7 : Nat)) (fun e : JSString => e) "demo".data 50 60
        sampleOpenState []).result = Except.ok 7 ∧
    (runCognitiveCycle (TaskResult.ok (7 : Nat)) (fun e : JSString => e) "demo".data 150 160
        sampleOpenState []).log = [expiredViolationEvent "demo".data 150 sampleOpenState] ∧
    (runCognitiveCycle (TaskResult.ok (7 : Nat)) (fun e : JSString => e) "demo".data 1000000
        1000001 sampleNoExpiryState []).invocations = 1 := by
  have h1 := gate_expiry_boundary (ε := JSString) 7 (fun e => e) "demo".data 50 60
    sampleOpenState [] (by decide) (by decide)
  have h2 := gate_expiry_boundary (ε := JSString) 7 (fun e => e) "demo".data 150 160
    sampleOpenState [] (by decide) (by decide)
  have h3 := gate_expiry_boundary (ε := JSString) 7 (fun e => e) "demo".data 1000000 1000001
    sampleNoExpiryState [] (by decide) (by decide)
  refine ⟨?_, ?_, ?_⟩
  · rw [h1.1 100 (by decide) (by decide)]
  · rw [h2.2.1 100 (by decide) (by decide)]
    rfl
  · rw [h3.2.2 (by decide)]

/-- Claim C7: under any window state and requested scope for which each call
is unauthorized (window not open, expired, or scope not authorized), a burst
of N consecutive `runCognitiveCycle` calls appends exactly N events, all of
type `CONSTITUTIONAL_VIOLATION`, invokes the task zero times in total, and
leaves the window state exactly as it was before the burst. -/
theorem gate_denial_burst {ε τ : Type} (taskRes : TaskResult ε τ) (errStr : ε → JSString)
    (s : JSString) (times : List Int) (nowEnd : Int) (st : STGState) (log : List AuditEvent)
    (hden : ∀ t ∈ times, unauthorizedAt st s t) :
    ∃ evs,
      (runBurst taskRes errStr s times nowEnd st log).2.1 = log ++ evs ∧
      evs.length = times.length ∧
      (∀ ev ∈ evs, ev.type = "CONSTITUTIONAL_VIOLATION".data) ∧
      (runBurst taskRes errStr s times nowEnd st log).1 = st ∧
      (runBurst taskRes errStr s times nowEnd st log).2.2 = 0 := by
  induction times generalizing log with
  | nil => exact ⟨[], by simp [runBurst], rfl, by simp, rfl, rfl⟩
  | cons t rest ih =>
      obtain ⟨ev, msg, hstep, htype⟩ :=
        runCognitiveCycle_unauthorized_step taskRes errStr s t nowEnd st log
          (hden t (List.mem_cons_self t rest))
      obtain ⟨evs, hlog, hlen, htypes, hst, hinv⟩ :=
        ih (log ++ [ev]) (fun u hu => hden u (List.mem_cons_of_mem t hu))
      refine ⟨ev :: evs, ?_, ?_, ?_, ?_, ?_⟩
      · simp only [runBurst, hstep]
        simpa using hlog
      · simpa using hlen
      · intro x hx
        rcases List.mem_cons.mp hx with h | h
        · simpa [h] using htype
        · exact htypes x h
      · simp only [runBurst, hstep]
        exact hst
      · simp only [runBurst, hstep]
        simpa using hinv

/-- Claim C7 witness: three consecutive calls against the initial (closed)
state with scope `x` log exactly three events, run the task zero times, and
leave the state unchanged. -/
theorem gate_denial_burst_witness :
    (runBurst (TaskResult.ok (7 : Nat)) (fun e : JSString => e) "x".data [1, 2, 3] 9
        initialSTGState []).2.2 = 0 ∧
    (runBurst (TaskResult.ok (7 : Nat)) (fun e : JSString => e) "x".data [1, 2, 3] 9
        initialSTGState []).2.1.length = 3 ∧
    (runBurst (TaskResult.ok (7 : Nat)) (fun e : JSString => e) "x".data [1, 2, 3] 9
        initialSTGState []).1 = initialSTGState := by
  obtain ⟨evs, hlog, hlen, htypes, hst, hinv⟩ :=
    gate_denial_burst (TaskResult.ok (7 : Nat)) (fun e : JSString => e) "x".data [1, 2, 3] 9
      initialSTGState [] (fun t _ => Or.inl (by decide))
  refine ⟨hinv, ?_, hst⟩
  rw [hlog]
  simp [hlen]

/-- Claim C8: once the gate reaches the task, a task that raises `e` gets a
`COGNITION_END` event with reason `failed` carrying `String(e)` in its
metadata, and exactly the original error `e` is re-raised unchanged; a task
returning `v` gets a `COGNITION_END` event with reason `completed` and
exactly `v` is returned. -/
theorem gate_task_error_propagation {ε τ : Type} (e : ε) (v : τ) (errStr : ε → JSString)
    (s : JSString) (now nowEnd : Int) (st : STGState) (log : List AuditEvent)
    (hopen : st.state = STGStatus.OPEN) (hexp : expiredCheck st.expires_at now = false)
    (hauth : isScopeAuthorized s st.scope = true) :
    runCognitiveCycle (TaskResult.raise e : TaskResult ε τ) errStr s now nowEnd st log =
      { state := st
        log := log ++ [cognitionStartEvent s now st,
                       cognitionEndFailedEvent s nowEnd st (errStr e)]
        result := Except.error (RunError.taskError e)
        invocations := 1 } ∧
    runCognitiveCycle (TaskResult.ok v : TaskResult ε τ) errStr s now nowEnd st log =
      { state := st
        log := log ++ [cognitionStartEvent s now st, cognitionEndCompletedEvent s nowEnd st]
        result := Except.ok v
        invocations := 1 } :=
  ⟨runCognitiveCycle_raise_run e errStr s now nowEnd st log hopen hexp hauth,
   runCognitiveCycle_ok_run v errStr s now nowEnd st log hopen hexp hauth⟩

/-- Claim C8 witness: under the sample open window, a task raising the error
`boom` yields the `failed` end event with `boom` in metadata and the same
error re-raised; a task returning 7 yields the `completed` end event and 7. -/
theorem gate_task_error_propagation_witness :
    runCognitiveCycle (TaskResult.raise "boom".data : TaskResult JSString Nat)
        (fun e : JSString => e) "demo".data 50 60 sampleOpenState [] =
      { state := sampleOpenState
        log := [] ++ [cognitionStartEvent "demo".data 50 sampleOpenState,
                      cognitionEndFailedEvent "demo".data 60 sampleOpenState "boom".data]
        result := Except.error (RunError.taskError "boom".data)
        invocations := 1 } ∧
    runCognitiveCycle (TaskResult.ok (7 : Nat) : TaskResult JSString Nat)
        (fun e : JSString => e) "demo".data 50 60 sampleOpenState [] =
      { state := sampleOpenState
        log := [] ++ [cognitionStartEvent "demo".data 50 sampleOpenState,
                      cognitionEndCompletedEvent "demo".data 60 sampleOpenState]
        result := Except.ok 7
        invocations := 1 } :=
  gate_task_error_propagation "boom".data 7 (fun e => e) "demo".data 50 60 sampleOpenState []
    (by decide) (by decide) (by decide)

/-- Claim C9: `closeSTG(now)` always yields status `CLOSED` with `scope`,
`stg_open_id` and `expires_at` all null, and carries `cooldown_until` over
verbatim from the prior state (the source's conditional returns the same
value in both branches), so the CLOSED-state invariant holds after every
close. -/
theorem closeSTG_closes_and_preserves_cooldown (now : Int) (s : STGState) :
    closeSTG now s =
      { state := STGStatus.CLOSED
        last_open_time := s.last_open_time
        expires_at := none
        scope := none
        stg_open_id := none
        cooldown_until := s.cooldown_until } := by
  simp [closeSTG]

/-- Claim C10: with an open, unexpired window authorized for scope `a`, a
requested scope that is a strict dot-descendant of `a` makes `runExecution`
append a `CONSTITUTIONAL_VIOLATION` event with reason
`unauthorized_execution` and fail without invoking the execute callback,
while `runCognitiveCycle` accepts the very same scope and runs the task. -/
theorem runExecution_requires_exact_scope {ε τ : Type} (v : τ) (errStr : ε → JSString)
    (s a : JSString) (oid : Option JSString) (now nowEnd : Int) (st : STGState)
    (log : List AuditEvent) (hopen : st.state = STGStatus.OPEN)
    (hexp : expiredCheck st.expires_at now = false) (hscope : st.scope = some a)
    (hdesc : jsStartsWith s (a ++ ".".data) = true) (hne : s ≠ a) :
    runExecution ({ scope := s, executeRes := TaskResult.ok v, stg_open_id := oid } :
        ExecutionRequest ε τ) errStr now nowEnd st log =
      { state := st
        log := log ++ [execUnauthorizedEvent s now st]
        result := Except.error (RunError.gateViolation (unauthorizedExecutionMsg s st))
        invocations := 0 } ∧
    runCognitiveCycle (TaskResult.ok v : TaskResult ε τ) errStr s now nowEnd st log =
      { state := st
        log := log ++ [cognitionStartEvent s now st, cognitionEndCompletedEvent s nowEnd st]
        result := Except.ok v
        invocations := 1 } := by
  constructor
  · unfold runExecution
    rw [if_neg (by simp [hopen]), if_neg (by simp [hexp]),
      if_pos (by rw [hscope]; simp; exact fun h => hne h.symm)]
  · apply runCognitiveCycle_ok_run v errStr s now nowEnd st log hopen hexp
    rw [hscope]
    unfold isScopeAuthorized
    simp [hdesc]

/-- Claim C10 witness: under the sample open window (scope `demo`), the
strict descendant `demo.x` is rejected by `runExecution` with reason
`unauthorized_execution` and zero callback invocations, yet accepted by
`runCognitiveCycle`, which returns the task's value 7. -/
theorem runExecution_requires_exact_scope_witness :
    runExecution (⟨"demo.x".data, TaskResult.ok (7 : Nat), none⟩ :
        ExecutionRequest JSString Nat) (fun e : JSString => e) 50 60 sampleOpenState [] =
      { state := sampleOpenState
        log := [] ++ [execUnauthorizedEvent "demo.x".data 50 sampleOpenState]
        result := Except.error (RunError.gateViolation
          (unauthorizedExecutionMsg "demo.x".data sampleOpenState))
        invocations := 0 } ∧
    runCognitiveCycle (TaskResult.ok (7 : Nat) : TaskResult JSString Nat)
        (fun e : JSString => e) "demo.x".data 50 60 sampleOpenState [] =
      { state := sampleOpenState
        log := [] ++ [cognitionStartEvent "demo.x".data 50 sampleOpenState,
                      cognitionEndCompletedEvent "demo.x".data 60 sampleOpenState]
        result := Except.ok 7
        invocations := 1 } :=
  runExecution_requires_exact_scope 7 (fun e => e) "demo.x".data "demo".data none 50 60
    sampleOpenState [] (by decide) (by decide) (by decide) (by decide) (by decide)
